import Mathlib

/-!
Verification development for the `42_tools` project generator (src/42.py).

The Python source is shallowly embedded as pure Lean functions:

* a file's text is a `String`; a vendor build file is modelled as its list
  of lines (the split of the text at newline characters), which is the view
  the tool's own multiline regexes take of it;
* the relevant fragment of the filesystem is an explicit `FS` record that
  every operation threads through;
* the Python functions `update_makefile`, `create_makefile`, `run_compile`
  and `run_make` become Lean functions of the same names; logging and
  subprocess calls carry no modelled state and are dropped, except that
  the error-logged early return of `update_makefile` (Python `return`
  with no value, i.e. `None`) is modelled as the `none` result.
-/

/-- ASCII whitespace, as matched by Python's `\s` in the tool's regexes and
stripped by `str.strip()` on the ASCII build-file texts the tool handles. -/
def isPySpace (c : Char) : Bool :=
  c = ' ' || c = '\t' || c = '\n' || c = '\r' || c = '\x0b' || c = '\x0c'

/-- `str.strip()` on the underlying character list. -/
def pyStripList (l : List Char) : List Char :=
  ((l.dropWhile isPySpace).reverse.dropWhile isPySpace).reverse

/-- Python `str.strip()`. -/
def pyStrip (s : String) : String := ⟨pyStripList s.data⟩

/-- `str.rstrip()` on the underlying character list. -/
def pyRStripList (l : List Char) : List Char :=
  (l.reverse.dropWhile isPySpace).reverse

/-- Python `str.rstrip()`. -/
def pyRStrip (s : String) : String := ⟨pyRStripList s.data⟩

/-- Python's substring test `"-g" in s` (src/42.py lines 244 and 246),
specialised to the two-character debug marker. -/
def containsDashG : List Char → Bool
  | [] => false
  | [_] => false
  | a :: b :: rest => (a = '-' && b = 'g') || containsDashG (b :: rest)

/-- Python's `s.replace("-g", "")` (src/42.py line 247): left-to-right
removal of non-overlapping occurrences of the two characters `-g`. -/
def removeDashG : List Char → List Char
  | [] => []
  | [c] => [c]
  | a :: b :: rest =>
      if a = '-' && b = 'g' then removeDashG rest
      else a :: removeDashG (b :: rest)

/-- List prefix test (executable). -/
def listIsPrefixB : List Char → List Char → Bool
  | [], _ => true
  | _ :: _, [] => false
  | a :: as, b :: bs => a = b && listIsPrefixB as bs

/-- List contiguous-substring test (executable). -/
def listIsInfixB (pat : List Char) : List Char → Bool
  | [] => listIsPrefixB pat []
  | c :: t => listIsPrefixB pat (c :: t) || listIsInfixB pat t

/-- `t` occurs as a contiguous substring of `s` (Python's `t in s`). -/
def strContainsSub (s t : String) : Bool := listIsInfixB t.data s.data

/-- Python's `s.endswith(suffix)` (src/42.py line 315). -/
def strEndsWith (s suffix : String) : Bool :=
  listIsPrefixB suffix.data.reverse s.data.reverse

/-- Split a character list at each space, keeping the words accumulated so
far (used to talk about the individual flags of a flag string). -/
def splitOnSpaceAux (cur : List Char) : List Char → List String
  | [] => [⟨cur.reverse⟩]
  | c :: t => if c = ' ' then ⟨cur.reverse⟩ :: splitOnSpaceAux [] t
              else splitOnSpaceAux (c :: cur) t

/-- The space-separated words of a string: the token view of a
compiler-flags value. -/
def splitOnSpace (s : String) : List String := splitOnSpaceAux [] s.data

/-- Matcher for the regex `^CFLAGS\s*(:|\?|)=\s*(.*)$` of src/42.py lines
237 and 249, applied to one line (the `re.MULTILINE` flag makes `^`/`$`
line anchors, and `.` does not cross lines).  Returns the two captured
groups: the assignment-operator prefix (empty, `:` or `?`) and the text
after `=` with its leading whitespace consumed by `\s*`. -/
def matchCFLAGS : List Char → Option (String × String)
  | 'C' :: 'F' :: 'L' :: 'A' :: 'G' :: 'S' :: rest =>
    match rest.dropWhile isPySpace with
    | ':' :: '=' :: v => some (":", ⟨v.dropWhile isPySpace⟩)
    | '?' :: '=' :: v => some ("?", ⟨v.dropWhile isPySpace⟩)
    | '=' :: v => some ("", ⟨v.dropWhile isPySpace⟩)
    | _ => none
  | _ => none

/-- `re.findall(...)[0]` of src/42.py lines 237-241: the captured groups of
the first line matching the CFLAGS pattern. -/
def findFirstMatch : List String → Option (String × String)
  | [] => none
  | l :: rest =>
    match matchCFLAGS l.data with
    | some m => some m
    | none => findFirstMatch rest

/-- The flag-value transformation of src/42.py lines 243-247, applied to the
already-stripped captured value: append ` -g` (and re-strip) when debug is
requested and the marker is absent; remove every `-g` occurrence (and
strip) when debug is not requested and the marker is present. -/
def patchValue (debug : Bool) (v : String) : String :=
  if debug && !containsDashG v.data then pyStrip (v ++ " -g")
  else if !debug && containsDashG v.data then pyStrip ⟨removeDashG v.data⟩
  else v

/-- The replacement text `f"CFLAGS {match[0]}= {cflags}"` of src/42.py
line 249. -/
def canonicalCFLAGSLine (op v : String) : String := "CFLAGS " ++ op ++ "= " ++ v

/-- The replacement line computed once from the first match and substituted
by `re.sub` (src/42.py line 249). -/
def patchedLine (debug : Bool) (op raw : String) : String :=
  canonicalCFLAGSLine op (patchValue debug (pyStrip raw))

/-- Effect of `re.sub` on a single line: every line matching the CFLAGS
pattern is replaced by the replacement text built from the first match
(`re.sub` has no count bound in the source), other lines are untouched. -/
def applyPatch (debug : Bool) (op raw : String) (l : String) : String :=
  if (matchCFLAGS l.data).isSome then patchedLine debug op raw else l

/-- Result of `update_makefile`: the file's lines after the call, and the
Python return value — `some true` / `some false` for the explicit
`return True` / `return False`, and `none` for the bare `return` taken
after the `Could not find CFLAGS` error is logged. -/
structure UpdateResult where
  newLines : List String
  result : Option Bool
deriving DecidableEq, Repr

/-- src/42.py lines 231-257 (`update_makefile`): find the first line
matching the CFLAGS pattern, transform its value according to the debug
flag, substitute the rebuilt line for every matching line, and report
whether the file changed.  The file is written back only when the text
differs, so `newLines` is the on-disk content after the call in every
case. -/
def update_makefile (debug : Bool) (lines : List String) : UpdateResult :=
  match findFirstMatch lines with
  | none => ⟨lines, none⟩
  | some (op, raw) =>
    let newLines := lines.map (applyPatch debug op raw)
    if newLines = lines then ⟨lines, some false⟩ else ⟨newLines, some true⟩

/-- Condition under which a second `update_makefile` call with the same
debug flag is a no-op: with debug off, removing the `-g` occurrences from
the first matched (stripped) value must not leave (by re-joining the
neighbouring characters) a new `-g` occurrence. -/
def patchStable (debug : Bool) (lines : List String) : Bool :=
  match findFirstMatch lines with
  | none => true
  | some (_, raw) => debug || !containsDashG (removeDashG (pyStrip raw).data)

/-- The persisted project configuration (`.42_config.yml`): the two flags
written by `create_config` and read back by `load_config`. -/
structure Config where
  libft : Bool
  minilibx : Bool
deriving DecidableEq, Repr

/-- The fragment of the filesystem the modelled operations read and write:
the project Makefile (if present), the recursively enumerated files under
`src` in `os.listdir` order, the project directory basename, and the two
vendor build files as lines (`libft/Makefile`, `minilibx/Makefile.mk`). -/
structure FS where
  makefile : Option String
  srcFiles : List String
  projectName : String
  libftMakefile : List String
  mlxMakefile : List String
deriving DecidableEq, Repr

/-- src/42.py lines 296-302 (`get_c_flags`): the base flag set, ` -g`
appended when debugging, ` -I./` appended when either vendor library is
configured, then `str.strip()`. -/
def get_c_flags (cfg : Config) (debug : Bool) : String :=
  let f := "-Wall -Wextra -Werror -I./includes"
  let f := if debug then f ++ " -g" else f
  let f := if cfg.libft || cfg.minilibx then f ++ " -I./" else f
  pyStrip f

/-- src/42.py lines 304-312 (`get_ld_flags`). -/
def get_ld_flags (cfg : Config) : String :=
  pyStrip ((if cfg.libft then " -L./libft -lft" else "")
    ++ (if cfg.minilibx then " -L./minilibx -lmlx -lX11 -lXext -lm" else ""))

/-- src/42.py lines 267-273 (`get_libs`). -/
def get_libs (cfg : Config) : String :=
  pyStrip ((if cfg.libft then " libft/libft.a" else "")
    ++ (if cfg.minilibx then " minilibx/libmlx.a" else ""))

/-- src/42.py lines 314-315 (`get_sources`): the `.c` files found under
`src`, joined by single spaces in enumeration order. -/
def get_sources (srcs : List String) : String :=
  String.intercalate " " (srcs.filter (fun f => strEndsWith f ".c"))

/-- src/42.py lines 179-191 (`get_clean_commands`). -/
def get_clean_commands (cfg : Config) : String :=
  pyRStrip ("\t$(RM) $(OBJS)\n"
    ++ (if cfg.libft then "\t$(MAKE) -C libft clean\n" else "")
    ++ (if cfg.minilibx then "\t$(MAKE) -C minilibx clean\n" else ""))

/-- src/42.py lines 193-205 (`get_fclean_commands`); note the source
recurses into the minilibx `clean` target here, not `fclean`. -/
def get_fclean_commands (cfg : Config) : String :=
  pyRStrip ("\t$(RM) $(OBJS) $(NAME)\n"
    ++ (if cfg.libft then "\t$(MAKE) -C libft fclean\n" else "")
    ++ (if cfg.minilibx then "\t$(MAKE) -C minilibx clean\n" else ""))

/-- src/42.py lines 207-219 (`get_re_commands`). -/
def get_re_commands (cfg : Config) : String :=
  pyRStrip ((if cfg.libft then "\t$(MAKE) -C libft re\n" else "")
    ++ (if cfg.minilibx then "\t$(MAKE) -C minilibx re\n" else ""))

/-- src/42.py lines 275-294 (`get_lib_rules`). -/
def get_lib_rules (cfg : Config) : String :=
  pyStrip (
    (if cfg.libft || cfg.minilibx then "## Libraries ##\n\n" else "")
    ++ (if cfg.libft then "libft/libft.a:\n\t$(MAKE) -C libft\n\n" else "")
    ++ (if cfg.minilibx then "minilibx/libmlx.a:\n\t$(MAKE) -C minilibx\n\n" else ""))

/-- The Makefile template written by `create_makefile` (src/42.py lines
123-163): the f-string with its leading newline sliced off, with the
template holes filled in.  Grouped right-associatively so that the target
line appears as one sub-term. -/
def renderMakefile (cfg : Config) (debug : Bool) (srcs : List String) (name : String) : String :=
  "# Generated using 42 tools, manual changes may be overwritten\n\n## Commands ##\n\nCC = cc\nCFLAGS = "
  ++ (get_c_flags cfg debug
  ++ ("\nLDFLAGS = "
  ++ (get_ld_flags cfg
  ++ ("\nRM = rm -f\n\n## Files ##\n\nSRCS = "
  ++ (get_sources srcs
  ++ ("\nOBJS = $(SRCS:src/%.c=obj/%.o)\n\n## Configuration ##\n\nNAME = "
  ++ (name
  ++ ("\n\n## Compilation rules ##\n\n"
  ++ (("$(NAME): $(OBJS) " ++ (get_libs cfg ++ "\n"))
  ++ ("\t$(CC) $(CFLAGS) $(LDFLAGS) -o $@ $^\n\nobj/%.o: src/%.c\n\t$(CC) $(CFLAGS) -c -o $@ $<\n\n## Cleaning rules ##\n\nclean:\n"
  ++ (get_clean_commands cfg
  ++ ("\n\nfclean: clean\n"
  ++ (get_fclean_commands cfg
  ++ ("\n\nre: fclean $(NAME)\n"
  ++ (get_re_commands cfg
  ++ ("\n\n"
  ++ (get_lib_rules cfg
  ++ "\n")))))))))))))))))

/-- Python truthiness of the `old_makefile` variable in the final check of
src/42.py line 174 (`not old_makefile`): `None` and the empty string are
falsy. -/
def pyTruthy : Option String → Bool
  | none => false
  | some s => !(s == "")

/-- src/42.py lines 109-177 (`create_makefile`): returns the filesystem
after the call and the returned `modified` flag.  `modified` starts
`False` and is set to `True` by any of: the warning branch (a prior
Makefile existed and `warn_if_exists`), a vendor patch that returned
`True`, or the final comparison (`not old_makefile or old_makefile !=
read_file("Makefile")`); the sequential `modified = True` assignments are
collapsed into one disjunction.  `debug` is `("debug" in args and
args.debug)`, which is `False` for the `init` command. -/
def create_makefile (cfg : Config) (debug warnIfExists : Bool) (fs : FS) : FS × Bool :=
  let old := fs.makefile
  let newText := renderMakefile cfg debug fs.srcFiles fs.projectName
  let libft' := if cfg.libft then (update_makefile debug fs.libftMakefile).newLines
                else fs.libftMakefile
  let mlx' := if cfg.minilibx then (update_makefile debug fs.mlxMakefile).newLines
              else fs.mlxMakefile
  let modified :=
    (warnIfExists && old.isSome)
    || (cfg.libft && ((update_makefile debug fs.libftMakefile).result == some true))
    || (cfg.minilibx && ((update_makefile debug fs.mlxMakefile).result == some true))
    || !(pyTruthy old)
    || !(old == some newText)
  (⟨some newText, fs.srcFiles, fs.projectName, libft', mlx'⟩, modified)

/-- src/42.py lines 420-434 (`run_make`): the command string passed to the
shell — `make`, with ` -B` appended when a forced rebuild was requested. -/
def run_make (forceRebuild : Bool) : String :=
  if forceRebuild then "make -B" else "make"

/-- src/42.py lines 382-396 (`run_compile`): regenerate the Makefile in
silent mode and invoke `make`, forcing a full rebuild exactly when
`create_makefile` reported a modification.  The norminette run and the
`obj` directory mirroring touch none of the modelled state and are
omitted; the returned string is the build command of the `run_make`
step. -/
def run_compile (cfg : Config) (debug : Bool) (fs : FS) : FS × String :=
  let r := create_makefile cfg debug false fs
  (r.1, run_make r.2)

/-! Facts about `isPySpace` on the individual characters the proofs meet. -/

@[simp] theorem isPySpace_space : isPySpace ' ' = true := rfl

@[simp] theorem isPySpace_eq_char : isPySpace '=' = false := rfl

@[simp] theorem isPySpace_colon : isPySpace ':' = false := rfl

@[simp] theorem isPySpace_qmark : isPySpace '?' = false := rfl

@[simp] theorem isPySpace_dash : isPySpace '-' = false := rfl

@[simp] theorem isPySpace_g : isPySpace 'g' = false := rfl

/-! Monotonicity of the `-g` substring test. -/

theorem containsDashG_cons (c : Char) (t : List Char) (h : containsDashG t = true) :
    containsDashG (c :: t) = true := by
  match t, h with
  | b :: rest, h =>
    simp only [containsDashG, Bool.or_eq_true] at h ⊢
    exact Or.inr h

theorem containsDashG_append_right (y z : List Char) (h : containsDashG z = true) :
    containsDashG (y ++ z) = true := by
  induction y with
  | nil => simpa using h
  | cons c y ih => exact containsDashG_cons c _ ih

theorem containsDashG_append_left : ∀ (x y : List Char), containsDashG x = true →
    containsDashG (x ++ y) = true
  | [], _, h => by simp [containsDashG] at h
  | [_], _, h => by simp [containsDashG] at h
  | a :: b :: r, y, h => by
    simp only [containsDashG, Bool.or_eq_true] at h ⊢
    rcases h with h | h
    · exact Or.inl h
    · exact Or.inr (containsDashG_append_left (b :: r) y h)

/-! Facts about `dropWhile isPySpace` and `pyStripList`. -/

theorem dropWhile_py_len_le (l : List Char) :
    (l.dropWhile isPySpace).length ≤ l.length := by
  induction l with
  | nil => exact Nat.le_refl _
  | cons c t ih =>
    rw [List.dropWhile_cons]
    cases h : isPySpace c with
    | true => simp only [if_pos rfl]; exact Nat.le_trans ih (Nat.le_succ _)
    | false => simp

theorem dropWhile_py_idem (l : List Char) :
    (l.dropWhile isPySpace).dropWhile isPySpace = l.dropWhile isPySpace := by
  induction l with
  | nil => rfl
  | cons c t ih =>
    rw [List.dropWhile_cons]
    cases h : isPySpace c with
    | true => simpa using ih
    | false => simp [List.dropWhile_cons, h]

theorem head_not_space (c : Char) (t : List Char)
    (h : List.dropWhile isPySpace (c :: t) = c :: t) : isPySpace c = false := by
  cases hc : isPySpace c with
  | false => rfl
  | true =>
    rw [List.dropWhile_cons, hc, if_pos rfl] at h
    have hlen := dropWhile_py_len_le t
    rw [h] at hlen
    simp at hlen

theorem leftStripped_of_append (k w : List Char)
    (h : List.dropWhile isPySpace (k ++ w) = k ++ w) :
    List.dropWhile isPySpace k = k := by
  cases k with
  | nil => rfl
  | cons c k' =>
    have hc : isPySpace c = false := head_not_space c (k' ++ w) (by simpa using h)
    simp [List.dropWhile_cons, hc]

theorem stripList_prefix (l : List Char) :
    ∃ w, l.dropWhile isPySpace = pyStripList l ++ w := by
  refine ⟨((l.dropWhile isPySpace).reverse.takeWhile isPySpace).reverse, ?_⟩
  conv_lhs => rw [← List.reverse_reverse (l.dropWhile isPySpace),
    ← List.takeWhile_append_dropWhile isPySpace (l.dropWhile isPySpace).reverse]
  rw [List.reverse_append]
  rfl

theorem stripList_decomp (l : List Char) :
    ∃ a b, l = a ++ (pyStripList l ++ b) := by
  obtain ⟨w, hw⟩ := stripList_prefix l
  exact ⟨l.takeWhile isPySpace, w, by
    conv_lhs => rw [← List.takeWhile_append_dropWhile isPySpace l]
    rw [hw]⟩

theorem dropWhile_stripList (l : List Char) :
    List.dropWhile isPySpace (pyStripList l) = pyStripList l := by
  obtain ⟨w, hw⟩ := stripList_prefix l
  have hm : List.dropWhile isPySpace (pyStripList l ++ w) = pyStripList l ++ w := by
    rw [← hw]; exact dropWhile_py_idem l
  exact leftStripped_of_append _ w hm

theorem stripList_eq_self (x : List Char)
    (h1 : List.dropWhile isPySpace x = x)
    (h2 : List.dropWhile isPySpace x.reverse = x.reverse) :
    pyStripList x = x := by
  unfold pyStripList
  rw [h1, h2, List.reverse_reverse]

theorem stripList_idem (l : List Char) : pyStripList (pyStripList l) = pyStripList l := by
  apply stripList_eq_self
  · exact dropWhile_stripList l
  · have hrev : (pyStripList l).reverse
        = List.dropWhile isPySpace (l.dropWhile isPySpace).reverse := by
      unfold pyStripList
      rw [List.reverse_reverse]
    rw [hrev, dropWhile_py_idem]

theorem containsDashG_stripList (l : List Char)
    (h : containsDashG (pyStripList l) = true) : containsDashG l = true := by
  obtain ⟨a, b, hab⟩ := stripList_decomp l
  rw [hab]
  exact containsDashG_append_right a _ (containsDashG_append_left _ b h)

/-! String-level corollaries. -/

theorem string_mk_data (s : String) : String.mk s.data = s := by
  cases s
  rfl

theorem pyStrip_idem (s : String) : pyStrip (pyStrip s) = pyStrip s :=
  congrArg String.mk (stripList_idem s.data)

theorem leftStripped_of_strip (s : String) (h : pyStrip s = s) :
    s.data.dropWhile isPySpace = s.data := by
  have hd : pyStripList s.data = s.data := congrArg String.data h
  rw [← hd]
  exact dropWhile_stripList s.data

theorem data_ne_nil_of_ne_empty (s : String) (h : s ≠ "") : s.data ≠ [] := by
  intro hd
  apply h
  apply String.ext
  rw [hd]

theorem strip_append_g (V : String) (hV : pyStrip V = V) (hne : V ≠ "") :
    pyStrip (V ++ " -g") = V ++ " -g" := by
  apply String.ext
  have hdata : (V ++ " -g").data = V.data ++ [' ', '-', 'g'] := String.data_append V " -g"
  show pyStripList (V ++ " -g").data = (V ++ " -g").data
  rw [hdata]
  apply stripList_eq_self
  · cases hd : V.data with
    | nil => exact absurd hd (data_ne_nil_of_ne_empty V hne)
    | cons c t =>
      have hc : isPySpace c = false :=
        head_not_space c t (by rw [← hd]; exact leftStripped_of_strip V hV)
      rw [List.cons_append, List.dropWhile_cons, hc]
      exact if_neg (by decide)
  · rw [List.reverse_append]
    have hrev : ([' ', '-', 'g'] : List Char).reverse = ['g', '-', ' '] := rfl
    rw [hrev, List.cons_append, List.dropWhile_cons, isPySpace_g]
    exact if_neg (by decide)

theorem contains_append_g (x : List Char) : containsDashG (x ++ [' ', '-', 'g']) = true :=
  containsDashG_append_right x _ (by decide)

/-! Facts about `patchValue` on stripped values. -/

theorem pyStrip_patchValue (d : Bool) (V : String) (hV : pyStrip V = V) :
    pyStrip (patchValue d V) = patchValue d V := by
  unfold patchValue
  split
  · exact pyStrip_idem _
  · split
    · exact pyStrip_idem _
    · exact hV

theorem patchValue_true_of_contains (V : String) (hc : containsDashG V.data = true) :
    patchValue true V = V := by
  unfold patchValue
  rw [hc]
  simp

theorem patchValue_true_of_not_contains (V : String) (hc : containsDashG V.data = false) :
    patchValue true V = pyStrip (V ++ " -g") := by
  unfold patchValue
  rw [hc]
  simp

theorem patchValue_false_of_contains (V : String) (hc : containsDashG V.data = true) :
    patchValue false V = pyStrip ⟨removeDashG V.data⟩ := by
  unfold patchValue
  rw [hc]
  simp

theorem patchValue_false_of_not_contains (V : String) (hc : containsDashG V.data = false) :
    patchValue false V = V := by
  unfold patchValue
  rw [hc]
  simp

theorem contains_patchValue_true (V : String) (hV : pyStrip V = V) :
    containsDashG (patchValue true V).data = true := by
  cases hc : containsDashG V.data with
  | true => rw [patchValue_true_of_contains V hc]; exact hc
  | false =>
    rw [patchValue_true_of_not_contains V hc]
    by_cases hne : V = ""
    · subst hne; decide
    · rw [strip_append_g V hV hne, String.data_append]
      show containsDashG (V.data ++ [' ', '-', 'g']) = true
      exact contains_append_g V.data

theorem not_contains_patchValue_false (V : String)
    (hs : containsDashG (removeDashG V.data) = false) :
    containsDashG (patchValue false V).data = false := by
  cases hc : containsDashG V.data with
  | false => rw [patchValue_false_of_not_contains V hc]; exact hc
  | true =>
    rw [patchValue_false_of_contains V hc]
    cases hres : containsDashG (pyStrip (String.mk (removeDashG V.data))).data with
    | false => rfl
    | true =>
      exfalso
      have h2 : containsDashG (pyStripList (removeDashG V.data)) = true := hres
      have h3 := containsDashG_stripList _ h2
      rw [hs] at h3
      exact Bool.noConfusion h3

theorem patchValue_fix (d : Bool) (V : String)
    (h1 : d = true → containsDashG V.data = true)
    (h0 : d = false → containsDashG V.data = false) :
    patchValue d V = V := by
  cases d with
  | false => exact patchValue_false_of_not_contains V (h0 rfl)
  | true => exact patchValue_true_of_contains V (h1 rfl)

/-! Facts about the line matcher. -/

theorem matchCFLAGS_ops (l : List Char) (op raw : String)
    (h : matchCFLAGS l = some (op, raw)) : op = "" ∨ op = ":" ∨ op = "?" := by
  unfold matchCFLAGS at h
  split at h
  · split at h
    · simp only [Option.some.injEq, Prod.mk.injEq] at h
      exact Or.inr (Or.inl h.1.symm)
    · simp only [Option.some.injEq, Prod.mk.injEq] at h
      exact Or.inr (Or.inr h.1.symm)
    · simp only [Option.some.injEq, Prod.mk.injEq] at h
      exact Or.inl h.1.symm
    · exact absurd h (by simp)
  · exact absurd h (by simp)

theorem findFirstMatch_cons_some (l : String) (rest : List String) (m : String × String)
    (hm : matchCFLAGS l.data = some m) : findFirstMatch (l :: rest) = some m := by
  unfold findFirstMatch
  rw [hm]

theorem findFirstMatch_cons_none (l : String) (rest : List String)
    (hm : matchCFLAGS l.data = none) :
    findFirstMatch (l :: rest) = findFirstMatch rest := by
  conv_lhs => unfold findFirstMatch
  rw [hm]

theorem findFirstMatch_ops : ∀ (ls : List String) (op raw : String),
    findFirstMatch ls = some (op, raw) → op = "" ∨ op = ":" ∨ op = "?"
  | [], _, _, h => by simp [findFirstMatch] at h
  | l :: rest, op, raw, h => by
    cases hm : matchCFLAGS l.data with
    | some m =>
      rw [findFirstMatch_cons_some l rest m hm] at h
      exact matchCFLAGS_ops l.data op raw (by rw [hm, Option.some.inj h])
    | none =>
      rw [findFirstMatch_cons_none l rest hm] at h
      exact findFirstMatch_ops rest op raw h

theorem matchCFLAGS_canonical (op w : String)
    (hop : op = "" ∨ op = ":" ∨ op = "?")
    (hw : w.data.dropWhile isPySpace = w.data) :
    matchCFLAGS (canonicalCFLAGSLine op w).data = some (op, w) := by
  rcases hop with h | h | h <;> subst h
  · have hd : (canonicalCFLAGSLine "" w).data
        = 'C' :: 'F' :: 'L' :: 'A' :: 'G' :: 'S' :: ' ' :: '=' :: ' ' :: w.data := by
      show (("CFLAGS " ++ "" ++ "= ") ++ w).data = _
      rw [String.data_append]
      rfl
    rw [hd]
    have hstep : matchCFLAGS
        ('C' :: 'F' :: 'L' :: 'A' :: 'G' :: 'S' :: ' ' :: '=' :: ' ' :: w.data)
        = some ("", ⟨w.data.dropWhile isPySpace⟩) := rfl
    rw [hstep, hw, string_mk_data]
  · have hd : (canonicalCFLAGSLine ":" w).data
        = 'C' :: 'F' :: 'L' :: 'A' :: 'G' :: 'S' :: ' ' :: ':' :: '=' :: ' ' :: w.data := by
      show (("CFLAGS " ++ ":" ++ "= ") ++ w).data = _
      rw [String.data_append]
      rfl
    rw [hd]
    have hstep : matchCFLAGS
        ('C' :: 'F' :: 'L' :: 'A' :: 'G' :: 'S' :: ' ' :: ':' :: '=' :: ' ' :: w.data)
        = some (":", ⟨w.data.dropWhile isPySpace⟩) := rfl
    rw [hstep, hw, string_mk_data]
  · have hd : (canonicalCFLAGSLine "?" w).data
        = 'C' :: 'F' :: 'L' :: 'A' :: 'G' :: 'S' :: ' ' :: '?' :: '=' :: ' ' :: w.data := by
      show (("CFLAGS " ++ "?" ++ "= ") ++ w).data = _
      rw [String.data_append]
      rfl
    rw [hd]
    have hstep : matchCFLAGS
        ('C' :: 'F' :: 'L' :: 'A' :: 'G' :: 'S' :: ' ' :: '?' :: '=' :: ' ' :: w.data)
        = some ("?", ⟨w.data.dropWhile isPySpace⟩) := rfl
    rw [hstep, hw, string_mk_data]

/-! Facts about `update_makefile`. -/

theorem update_of_none (d : Bool) (ls : List String) (h : findFirstMatch ls = none) :
    update_makefile d ls = ⟨ls, none⟩ := by
  unfold update_makefile
  rw [h]

theorem update_of_some (d : Bool) (ls : List String) (op raw : String)
    (h : findFirstMatch ls = some (op, raw)) :
    update_makefile d ls =
      (if ls.map (applyPatch d op raw) = ls then ⟨ls, some false⟩
       else ⟨ls.map (applyPatch d op raw), some true⟩) := by
  unfold update_makefile
  rw [h]

theorem update_newLines_some (d : Bool) (ls : List String) (op raw : String)
    (h : findFirstMatch ls = some (op, raw)) :
    (update_makefile d ls).newLines = ls.map (applyPatch d op raw) := by
  rw [update_of_some d ls op raw h]
  split
  case isTrue h2 => exact h2.symm
  case isFalse => rfl

theorem applyPatch_of_match (d : Bool) (op raw : String) (l : String)
    (hm : (matchCFLAGS l.data).isSome = true) :
    applyPatch d op raw l = patchedLine d op raw := by
  unfold applyPatch
  rw [hm]
  rfl

theorem applyPatch_of_no_match (d : Bool) (op raw : String) (l : String)
    (hm : matchCFLAGS l.data = none) : applyPatch d op raw l = l := by
  unfold applyPatch
  rw [hm]
  rfl

theorem findFirstMatch_map (d : Bool) : ∀ (ls : List String) (op raw : String),
    findFirstMatch ls = some (op, raw) →
    findFirstMatch (ls.map (applyPatch d op raw))
      = some (op, patchValue d (pyStrip raw))
  | [], _, _, h => by simp [findFirstMatch] at h
  | l :: rest, op, raw, h => by
    have hop : op = "" ∨ op = ":" ∨ op = "?" := findFirstMatch_ops (l :: rest) op raw h
    have hw : (patchValue d (pyStrip raw)).data.dropWhile isPySpace
        = (patchValue d (pyStrip raw)).data :=
      leftStripped_of_strip _ (pyStrip_patchValue d _ (pyStrip_idem raw))
    cases hm : matchCFLAGS l.data with
    | some m =>
      rw [findFirstMatch_cons_some l rest m hm] at h
      have hml : matchCFLAGS l.data = some (op, raw) := by rw [hm, Option.some.inj h]
      rw [List.map_cons]
      rw [applyPatch_of_match d op raw l (by rw [hml]; rfl)]
      apply findFirstMatch_cons_some
      show matchCFLAGS (canonicalCFLAGSLine op (patchValue d (pyStrip raw))).data = _
      exact matchCFLAGS_canonical op _ hop hw
    | none =>
      rw [findFirstMatch_cons_none l rest hm] at h
      rw [List.map_cons, applyPatch_of_no_match d op raw l hm]
      rw [findFirstMatch_cons_none _ _ hm]
      exact findFirstMatch_map d rest op raw h

theorem update_twice_some (d : Bool) (ls : List String) (op raw : String)
    (h : findFirstMatch ls = some (op, raw))
    (hs : d = false → containsDashG (removeDashG (pyStrip raw).data) = false) :
    update_makefile d (update_makefile d ls).newLines =
      ⟨(update_makefile d ls).newLines, some false⟩ := by
  have hop : op = "" ∨ op = ":" ∨ op = "?" := findFirstMatch_ops ls op raw h
  have hVs : pyStrip (pyStrip raw) = pyStrip raw := pyStrip_idem raw
  have hWs : pyStrip (patchValue d (pyStrip raw)) = patchValue d (pyStrip raw) :=
    pyStrip_patchValue d _ hVs
  have hWfix : patchValue d (patchValue d (pyStrip raw)) = patchValue d (pyStrip raw) := by
    apply patchValue_fix
    · intro hd
      subst hd
      exact contains_patchValue_true _ hVs
    · intro hd
      subst hd
      exact not_contains_patchValue_false _ (hs rfl)
  have h1 : (update_makefile d ls).newLines = ls.map (applyPatch d op raw) :=
    update_newLines_some d ls op raw h
  have h2 : findFirstMatch (update_makefile d ls).newLines
      = some (op, patchValue d (pyStrip raw)) := by
    rw [h1]
    exact findFirstMatch_map d ls op raw h
  have hcanon : matchCFLAGS (patchedLine d op raw).data
      = some (op, patchValue d (pyStrip raw)) := by
    show matchCFLAGS (canonicalCFLAGSLine op (patchValue d (pyStrip raw))).data = _
    exact matchCFLAGS_canonical op _ hop
      (leftStripped_of_strip _ hWs)
  have hpt : ∀ l, applyPatch d op (patchValue d (pyStrip raw)) (applyPatch d op raw l)
      = applyPatch d op raw l := by
    intro l
    cases hm : (matchCFLAGS l.data).isSome with
    | false =>
      have hmn : matchCFLAGS l.data = none := by
        cases hmm : matchCFLAGS l.data with
        | none => rfl
        | some m => rw [hmm] at hm; exact absurd hm (by simp)
      rw [applyPatch_of_no_match d op raw l hmn,
          applyPatch_of_no_match d op _ l hmn]
    | true =>
      rw [applyPatch_of_match d op raw l hm]
      rw [applyPatch_of_match d op _ _ (by rw [hcanon]; rfl)]
      show canonicalCFLAGSLine op (patchValue d (pyStrip (patchValue d (pyStrip raw))))
          = canonicalCFLAGSLine op (patchValue d (pyStrip raw))
      rw [hWs, hWfix]
  have hmap : ((update_makefile d ls).newLines).map
        (applyPatch d op (patchValue d (pyStrip raw)))
      = (update_makefile d ls).newLines := by
    rw [h1, List.map_map]
    have hfun : (applyPatch d op (patchValue d (pyStrip raw)) ∘ applyPatch d op raw)
        = applyPatch d op raw := funext hpt
    rw [hfun]
  rw [update_of_some d _ op (patchValue d (pyStrip raw)) h2, hmap]
  simp

theorem update_second_noop (d : Bool) (ls : List String) (h : patchStable d ls = true) :
    (update_makefile d (update_makefile d ls).newLines).newLines
        = (update_makefile d ls).newLines
    ∧ ((update_makefile d (update_makefile d ls).newLines).result == some true)
        = false := by
  cases hf : findFirstMatch ls with
  | none =>
    rw [update_of_none d ls hf]
    show (update_makefile d ls).newLines = ls ∧ _
    rw [update_of_none d ls hf]
    exact ⟨rfl, rfl⟩
  | some m =>
    obtain ⟨op, raw⟩ := m
    have hs : d = false → containsDashG (removeDashG (pyStrip raw).data) = false := by
      intro hd
      subst hd
      unfold patchStable at h
      rw [hf] at h
      simpa using h
    rw [update_twice_some d ls op raw hf hs]
    exact ⟨rfl, rfl⟩

/-! Facts about the substring test, used for the rendered Makefile. -/

theorem prefB_self_append (x r : List Char) : listIsPrefixB x (x ++ r) = true := by
  induction x with
  | nil => rfl
  | cons c t ih => simpa [listIsPrefixB] using ih

theorem prefB_append_both (a b c : List Char) :
    listIsPrefixB (a ++ b) (a ++ c) = listIsPrefixB b c := by
  induction a with
  | nil => rfl
  | cons x t ih => simpa [listIsPrefixB] using ih

theorem infixB_of_prefB (p m : List Char) (h : listIsPrefixB p m = true) :
    listIsInfixB p m = true := by
  cases m with
  | nil => exact h
  | cons c t =>
    unfold listIsInfixB
    rw [h]
    rfl

theorem infixB_append_left (p : List Char) : ∀ (x m : List Char),
    listIsInfixB p m = true → listIsInfixB p (x ++ m) = true
  | [], _, h => h
  | c :: t, m, h => by
    show listIsInfixB p (c :: (t ++ m)) = true
    unfold listIsInfixB
    rw [infixB_append_left p t m h]
    simp

/-! Facts about the rendered Makefile text. -/

theorem renderMakefile_ne_empty (cfg : Config) (d : Bool) (srcs : List String)
    (name : String) : renderMakefile cfg d srcs name ≠ "" := by
  intro h
  have h0 : (renderMakefile cfg d srcs name).length = 0 := by rw [h]; rfl
  unfold renderMakefile at h0
  rw [String.length_append] at h0
  have h1 : ("# Generated using 42 tools, manual changes may be overwritten\n\n## Commands ##\n\nCC = cc\nCFLAGS = ").length = 0 := by
    omega
  exact absurd h1 (by decide)

theorem render_contains_target (cfg : Config) (d : Bool) (srcs : List String)
    (name : String) :
    strContainsSub (renderMakefile cfg d srcs name)
      ("$(NAME): $(OBJS) " ++ get_libs cfg ++ "\n") = true := by
  unfold strContainsSub renderMakefile
  simp only [String.data_append, List.append_assoc]
  apply infixB_append_left
  apply infixB_append_left
  apply infixB_append_left
  apply infixB_append_left
  apply infixB_append_left
  apply infixB_append_left
  apply infixB_append_left
  apply infixB_append_left
  apply infixB_append_left
  apply infixB_of_prefB
  rw [prefB_append_both, prefB_append_both]
  exact prefB_self_append _ _

/-! Unfolding equations for `create_makefile`. -/

theorem create_makefile_fst (cfg : Config) (d w : Bool) (fs : FS) :
    (create_makefile cfg d w fs).1 =
      ⟨some (renderMakefile cfg d fs.srcFiles fs.projectName), fs.srcFiles, fs.projectName,
       if cfg.libft then (update_makefile d fs.libftMakefile).newLines else fs.libftMakefile,
       if cfg.minilibx then (update_makefile d fs.mlxMakefile).newLines else fs.mlxMakefile⟩ :=
  rfl

theorem create_makefile_snd (cfg : Config) (d w : Bool) (fs : FS) :
    (create_makefile cfg d w fs).2 =
      ((w && fs.makefile.isSome)
       || (cfg.libft && ((update_makefile d fs.libftMakefile).result == some true))
       || (cfg.minilibx && ((update_makefile d fs.mlxMakefile).result == some true))
       || !(pyTruthy fs.makefile)
       || !(fs.makefile == some (renderMakefile cfg d fs.srcFiles fs.projectName))) :=
  rfl

/-- Claim C1: for every project configuration (libft/minilibx flags and
debug flag) and every fixed source tree, rendering the Makefile twice with
no intervening change to configuration or source tree produces
byte-for-byte identical Makefile text; the written text is a function of
the configuration, the debug flag, the enumerated source files and the
project name only, none of which a `create_makefile` call changes. -/
theorem claim1_render_deterministic (cfg : Config) (d w w2 : Bool) (fs : FS) :
    (create_makefile cfg d w2 (create_makefile cfg d w fs).1).1.makefile
      = (create_makefile cfg d w fs).1.makefile
    ∧ (create_makefile cfg d w fs).1.makefile
      = some (renderMakefile cfg d fs.srcFiles fs.projectName) :=
  ⟨rfl, rfl⟩

/-- Claim C2 (amended): in silent (compile) mode with both vendor
libraries disabled, the `modified` result of `create_makefile` is false
exactly when the newly rendered text equals the previously persisted
text (in particular it is true when no prior Makefile existed); in
warning (init) mode the result is additionally true whenever a prior
Makefile existed, even with identical content. -/
theorem claim2_modified_iff (cfg : Config) (d : Bool) (fs : FS)
    (hl : cfg.libft = false) (hm : cfg.minilibx = false) :
    ((create_makefile cfg d false fs).2 = false ↔
      fs.makefile = some (renderMakefile cfg d fs.srcFiles fs.projectName))
    ∧ (fs.makefile.isSome = true → (create_makefile cfg d true fs).2 = true) := by
  have hne := renderMakefile_ne_empty cfg d fs.srcFiles fs.projectName
  constructor
  · constructor
    · intro hh
      rw [create_makefile_snd, hl, hm] at hh
      simp only [Bool.false_and, Bool.false_or] at hh
      rw [Bool.or_eq_false_iff] at hh
      obtain ⟨h1b, h2b⟩ := hh
      have h3 : (fs.makefile
          == some (renderMakefile cfg d fs.srcFiles fs.projectName)) = true := by
        cases hx : fs.makefile
            == some (renderMakefile cfg d fs.srcFiles fs.projectName) with
        | true => rfl
        | false => rw [hx] at h2b; exact absurd h2b (by decide)
      exact eq_of_beq h3
    · intro hh
      rw [create_makefile_snd, hl, hm, hh]
      simp [pyTruthy, hne]
  · intro hh
    rw [create_makefile_snd, hh]
    simp

/-- Claim C2 counterexample: in warning (init) mode a prior Makefile whose
text is byte-identical to the newly rendered text still yields
`modified = true`; and in silent mode with libft configured, a vendor
flags-line rewrite yields `modified = true` although the project
Makefile text is unchanged. -/
theorem claim2_counterexample :
    ((create_makefile ⟨false, false⟩ false true
        ⟨some (renderMakefile ⟨false, false⟩ false [] "p"), [], "p", [], []⟩).2 = true)
    ∧ ((create_makefile ⟨true, false⟩ false false
        ⟨some (renderMakefile ⟨true, false⟩ false [] "p"), [], "p",
          ["CFLAGS=-O2"], []⟩).2 = true) :=
  ⟨rfl, rfl⟩

/-- Claim C2 witness: a concrete silent-mode run on an unchanged state
reports `modified = false`. -/
theorem claim2_witness :
    (create_makefile ⟨false, false⟩ false false
        ⟨some (renderMakefile ⟨false, false⟩ false [] "q"), [], "q", [], []⟩).2
      = false :=
  ((claim2_modified_iff ⟨false, false⟩ false
      ⟨some (renderMakefile ⟨false, false⟩ false [] "q"), [], "q", [], []⟩
      rfl rfl).1).mpr rfl

/-- Claim C3 (amended): the vendor-flags patch preserves every line not
matching the flags-assignment pattern verbatim (and preserves the line
count), but it rewrites every matching line — not only the first — to the
canonical patched line built from the first match. -/
theorem claim3_patch_frame (d : Bool) (ls : List String) :
    (update_makefile d ls).newLines.length = ls.length
    ∧ (∀ (i : Nat) (l : String), ls[i]? = some l → matchCFLAGS l.data = none →
        (update_makefile d ls).newLines[i]? = some l)
    ∧ (∀ op raw, findFirstMatch ls = some (op, raw) →
        ∀ (i : Nat) (l : String), ls[i]? = some l →
          (matchCFLAGS l.data).isSome = true →
          (update_makefile d ls).newLines[i]?
            = some (canonicalCFLAGSLine op (patchValue d (pyStrip raw)))) := by
  cases hf : findFirstMatch ls with
  | none =>
    rw [update_of_none d ls hf]
    exact ⟨rfl, fun i l hi _ => hi,
      fun op raw hsome => absurd hsome (by simp)⟩
  | some m =>
    obtain ⟨op, raw⟩ := m
    have hnl := update_newLines_some d ls op raw hf
    refine ⟨by rw [hnl, List.length_map], ?_, ?_⟩
    · intro i l hi hmi
      rw [hnl, List.getElem?_map, hi]
      simp [applyPatch_of_no_match d op raw l hmi]
    · intro op2 raw2 hf2 i l hi hmi
      injection hf2 with h3
      injection h3 with h4 h5
      subst h4
      subst h5
      rw [hnl, List.getElem?_map, hi]
      simp only [Option.map_some']
      rw [applyPatch_of_match d op raw l hmi]
      rfl

/-- Claim C3 counterexample: on a file with two matching flags lines the
patch rewrites the second matching line as well (to the first line's
patched form), so not every other line is preserved verbatim. -/
theorem claim3_counterexample :
    (update_makefile false ["CFLAGS = -Wall", "CFLAGS = -O2"]).newLines
      = ["CFLAGS = -Wall", "CFLAGS = -Wall"]
    ∧ (update_makefile false ["CFLAGS = -Wall", "CFLAGS = -O2"]).newLines[1]?
      ≠ some "CFLAGS = -O2" :=
  ⟨by decide, by decide⟩

/-- Claim C3 witness: a concrete non-matching line is preserved in place. -/
theorem claim3_witness :
    (update_makefile false ["CFLAGS = -O2", "hello"]).newLines[1]? = some "hello" :=
  (claim3_patch_frame false ["CFLAGS = -O2", "hello"]).2.1 1 "hello" rfl rfl

/-- Claim C4 (amended): for every vendor build file containing a matching
flags line, applying the patch twice with the same debug flag is a no-op
on the second call — the file stays byte-identical and the call returns
`false` — provided that, when debug is off, removing the `-g` occurrences
from the first matched value does not re-join neighbouring characters
into a new `-g` occurrence. -/
theorem claim4_second_call_noop (d : Bool) (ls : List String) (op raw : String)
    (h : findFirstMatch ls = some (op, raw))
    (hs : d = false → containsDashG (removeDashG (pyStrip raw).data) = false) :
    update_makefile d (update_makefile d ls).newLines
      = ⟨(update_makefile d ls).newLines, some false⟩ :=
  update_twice_some d ls op raw h hs

/-- Claim C4 counterexample: on the flags value `--gg` (with debug off)
the removal of `-g` creates a fresh `-g`, so the second call modifies the
file again and returns `true`; and on a file with no matching line the
call returns the error result rather than `false`. -/
theorem claim4_counterexample :
    (update_makefile false (update_makefile false ["CFLAGS = --gg"]).newLines).result
        = some true
    ∧ (update_makefile false (update_makefile false ["CFLAGS = --gg"]).newLines).newLines
        ≠ (update_makefile false ["CFLAGS = --gg"]).newLines
    ∧ (update_makefile false ["hello"]).result = none :=
  ⟨by decide, by decide, by decide⟩

/-- Claim C4 witness: a concrete second call is a no-op returning
`false`. -/
theorem claim4_witness :
    update_makefile true (update_makefile true ["CFLAGS = -O2"]).newLines
      = ⟨(update_makefile true ["CFLAGS = -O2"]).newLines, some false⟩ :=
  claim4_second_call_noop true ["CFLAGS = -O2"] "" "-O2" rfl
    (fun hd => Bool.noConfusion hd)

/-- Claim C5: for every vendor build file whose first matching flags line
has operator prefix `op` (empty, `:` or `?`, i.e. assignment `=`, `:=` or
`?=`) and stripped value `V`, the patch preserves `op` and produces the
flags value `V ++ " -g"` when debug is requested and `-g` was absent, and
the value with all `-g` occurrences removed (and re-stripped) when debug
is not requested and `-g` was present. -/
theorem claim5_patch_value (d : Bool) (ls : List String) (op raw : String)
    (h : findFirstMatch ls = some (op, raw)) :
    (op = "" ∨ op = ":" ∨ op = "?")
    ∧ findFirstMatch (update_makefile d ls).newLines
        = some (op, patchValue d (pyStrip raw))
    ∧ (d = true → containsDashG (pyStrip raw).data = false → pyStrip raw ≠ "" →
        patchValue d (pyStrip raw) = pyStrip raw ++ " -g")
    ∧ (d = false → containsDashG (pyStrip raw).data = true →
        patchValue d (pyStrip raw) = pyStrip ⟨removeDashG (pyStrip raw).data⟩) := by
  refine ⟨findFirstMatch_ops ls op raw h, ?_, ?_, ?_⟩
  · rw [update_newLines_some d ls op raw h]
    exact findFirstMatch_map d ls op raw h
  · intro hd hc hne
    subst hd
    rw [patchValue_true_of_not_contains _ hc]
    exact strip_append_g _ (pyStrip_idem raw) hne
  · intro hd hc
    subst hd
    exact patchValue_false_of_contains _ hc

/-- Claim C5 witness: a concrete `:=` line gains ` -g` and keeps its
operator. -/
theorem claim5_witness :
    findFirstMatch (update_makefile true ["CFLAGS := -O2"]).newLines
        = some (":", patchValue true (pyStrip "-O2"))
    ∧ patchValue true (pyStrip "-O2") = pyStrip "-O2" ++ " -g" :=
  ⟨(claim5_patch_value true ["CFLAGS := -O2"] ":" "-O2" rfl).2.1,
   (claim5_patch_value true ["CFLAGS := -O2"] ":" "-O2" rfl).2.2.1 rfl (by decide)
     (by decide)⟩

/-- Claim C6: on a vendor build file with no line matching the
flags-assignment pattern the patch leaves the file unchanged and returns
the error result (the logged `Could not find CFLAGS` early return,
modelled as `none`), and the enclosing `create_makefile` still completes:
it writes the rendered Makefile and returns the `modified` flag computed
from the remaining conditions. -/
theorem claim6_missing_flags_nonfatal (cfg : Config) (d w : Bool) (fs : FS)
    (h : findFirstMatch fs.libftMakefile = none)
    (hl : cfg.libft = true) (hm : cfg.minilibx = false) :
    update_makefile d fs.libftMakefile = ⟨fs.libftMakefile, none⟩
    ∧ (create_makefile cfg d w fs).1.libftMakefile = fs.libftMakefile
    ∧ (create_makefile cfg d w fs).1.makefile
        = some (renderMakefile cfg d fs.srcFiles fs.projectName)
    ∧ (create_makefile cfg d w fs).2
        = ((w && fs.makefile.isSome) || !(pyTruthy fs.makefile)
           || !(fs.makefile
                == some (renderMakefile cfg d fs.srcFiles fs.projectName))) := by
  have hu := update_of_none d fs.libftMakefile h
  refine ⟨hu, ?_, rfl, ?_⟩
  · rw [create_makefile_fst, hl]
    simp [hu]
  · rw [create_makefile_snd, hl, hm, hu]
    simp [Bool.or_assoc]

/-- Claim C6 witness: a concrete init-style call over a vendor file with
no flags line leaves that file untouched and reports the error result. -/
theorem claim6_witness :
    (create_makefile ⟨true, false⟩ false false
        ⟨none, [], "p", ["hello"], []⟩).1.libftMakefile = ["hello"]
    ∧ update_makefile false (FS.libftMakefile ⟨none, [], "p", ["hello"], []⟩)
        = ⟨["hello"], none⟩ :=
  ⟨(claim6_missing_flags_nonfatal ⟨true, false⟩ false false
      ⟨none, [], "p", ["hello"], []⟩ rfl rfl rfl).2.1,
   (claim6_missing_flags_nonfatal ⟨true, false⟩ false false
      ⟨none, [], "p", ["hello"], []⟩ rfl rfl rfl).1⟩

/-- Claim C7 (amended): running compile a second time with no intervening
change invokes the build tool without the force-rebuild flag (plain
`make`), provided each configured vendor build file satisfies the
stability condition (automatic when debug is on, and when removing `-g`
from its first matched value creates no new `-g` occurrence). -/
theorem claim7_second_compile_no_force (cfg : Config) (d : Bool) (fs : FS)
    (hL : cfg.libft = true → patchStable d fs.libftMakefile = true)
    (hM : cfg.minilibx = true → patchStable d fs.mlxMakefile = true) :
    (run_compile cfg d (run_compile cfg d fs).1).2 = "make" := by
  show run_make (create_makefile cfg d false (create_makefile cfg d false fs).1).2
      = "make"
  have hkey : (create_makefile cfg d false (create_makefile cfg d false fs).1).2
      = ((false && (some (renderMakefile cfg d fs.srcFiles fs.projectName)).isSome)
         || (cfg.libft && ((update_makefile d (if cfg.libft
              then (update_makefile d fs.libftMakefile).newLines
              else fs.libftMakefile)).result == some true))
         || (cfg.minilibx && ((update_makefile d (if cfg.minilibx
              then (update_makefile d fs.mlxMakefile).newLines
              else fs.mlxMakefile)).result == some true))
         || !(pyTruthy (some (renderMakefile cfg d fs.srcFiles fs.projectName)))
         || !((some (renderMakefile cfg d fs.srcFiles fs.projectName) : Option String)
              == some (renderMakefile cfg d fs.srcFiles fs.projectName))) := rfl
  rw [hkey]
  have hne := renderMakefile_ne_empty cfg d fs.srcFiles fs.projectName
  have htr : pyTruthy (some (renderMakefile cfg d fs.srcFiles fs.projectName))
      = true := by
    simp [pyTruthy, hne]
  have hbeq : ((some (renderMakefile cfg d fs.srcFiles fs.projectName) : Option String)
      == some (renderMakefile cfg d fs.srcFiles fs.projectName)) = true := by
    simp
  have hLb : (cfg.libft && ((update_makefile d (if cfg.libft
      then (update_makefile d fs.libftMakefile).newLines
      else fs.libftMakefile)).result == some true)) = false := by
    cases hcl : cfg.libft with
    | false => rfl
    | true =>
      have h2 := (update_second_noop d fs.libftMakefile (hL hcl)).2
      simpa using h2
  have hMb : (cfg.minilibx && ((update_makefile d (if cfg.minilibx
      then (update_makefile d fs.mlxMakefile).newLines
      else fs.mlxMakefile)).result == some true)) = false := by
    cases hcm : cfg.minilibx with
    | false => rfl
    | true =>
      have h2 := (update_second_noop d fs.mlxMakefile (hM hcm)).2
      simpa using h2
  rw [hLb, hMb, htr, hbeq]
  rfl

/-- Claim C7 counterexample: with libft configured and its flags value
`--gg`, a second unchanged compile still forces a full rebuild
(`make -B`), because the vendor patch modifies the file again. -/
theorem claim7_counterexample :
    (run_compile ⟨true, false⟩ false
        (run_compile ⟨true, false⟩ false
          ⟨none, [], "p", ["CFLAGS = --gg"], []⟩).1).2 = "make -B" :=
  rfl

/-- Claim C7 witness: a concrete unchanged second compile invokes plain
`make`. -/
theorem claim7_witness :
    (run_compile ⟨false, false⟩ false
        (run_compile ⟨false, false⟩ false ⟨none, [], "w", [], []⟩).1).2 = "make" :=
  claim7_second_compile_no_force ⟨false, false⟩ false ⟨none, [], "w", [], []⟩
    (fun hcon => Bool.noConfusion hcon) (fun hcon => Bool.noConfusion hcon)

/-- Claim C8: with both optional libraries disabled the primary target
depends only on the object files (the library-archive part of the target
line is empty) and `CFLAGS` excludes the extra include path `-I./`,
which is present exactly when at least one optional library is
included. -/
theorem claim8_no_libs (cfg cfg2 : Config) (d d2 : Bool) (srcs : List String)
    (name : String) (h1 : cfg.libft = false) (h2 : cfg.minilibx = false) :
    get_libs cfg = ""
    ∧ strContainsSub (renderMakefile cfg d srcs name)
        ("$(NAME): $(OBJS) " ++ get_libs cfg ++ "\n") = true
    ∧ "-I./" ∉ splitOnSpace (get_c_flags cfg d)
    ∧ ("-I./" ∈ splitOnSpace (get_c_flags cfg2 d2)
        ↔ (cfg2.libft || cfg2.minilibx) = true) := by
  obtain ⟨l1, m1⟩ := cfg
  obtain ⟨l2, m2⟩ := cfg2
  subst h1
  subst h2
  refine ⟨by decide, render_contains_target _ d srcs name, ?_, ?_⟩
  · cases d <;> decide
  · cases l2 <;> cases m2 <;> cases d2 <;> decide

/-- Claim C8 witness: concrete evaluations of the library-dependency and
include-path facts. -/
theorem claim8_witness :
    get_libs ⟨false, false⟩ = ""
    ∧ ("-I./" ∈ splitOnSpace (get_c_flags ⟨true, false⟩ false)
        ↔ ((true : Bool) || false) = true) :=
  ⟨(claim8_no_libs ⟨false, false⟩ ⟨true, false⟩ false false [] "p" rfl rfl).1,
   (claim8_no_libs ⟨false, false⟩ ⟨true, false⟩ false false [] "p" rfl rfl).2.2.2⟩

/-- Claim C9: the patch treats `-g` as an unanchored substring — with
debug on it never changes a value already containing `-g` anywhere (so a
value `-ggdb` never gains a standalone `-g`), and with debug off it
removes the `-g` occurrences from the value (so `-ggdb` becomes
`gdb`). -/
theorem claim9_substring_semantics (ls : List String) (op raw : String)
    (h : findFirstMatch ls = some (op, raw))
    (hg : containsDashG (pyStrip raw).data = true) :
    findFirstMatch (update_makefile true ls).newLines = some (op, pyStrip raw)
    ∧ findFirstMatch (update_makefile false ls).newLines
        = some (op, pyStrip ⟨removeDashG (pyStrip raw).data⟩)
    ∧ (update_makefile false ["CFLAGS = -ggdb"]).newLines = ["CFLAGS = gdb"]
    ∧ (update_makefile true ["CFLAGS = -ggdb"]).newLines = ["CFLAGS = -ggdb"] := by
  refine ⟨?_, ?_, by decide, by decide⟩
  · rw [update_newLines_some true ls op raw h, findFirstMatch_map true ls op raw h,
      patchValue_true_of_contains _ hg]
  · rw [update_newLines_some false ls op raw h, findFirstMatch_map false ls op raw h,
      patchValue_false_of_contains _ hg]

/-- Claim C9 witness: a concrete value containing `-g` is unchanged by a
debug-on patch. -/
theorem claim9_witness :
    findFirstMatch (update_makefile true ["CFLAGS = -g -O2"]).newLines
      = some ("", pyStrip "-g -O2") :=
  (claim9_substring_semantics ["CFLAGS = -g -O2"] "" "-g -O2" rfl (by decide)).1

/-- Claim C10: the patch rewrites the matched line into the canonical
single-space form, so a file whose flags line uses non-canonical spacing
is rewritten and reported modified on the first call even though its
debug state already matched the request (the flags value itself is
unchanged). -/
theorem claim10_canonicalisation :
    update_makefile false ["CFLAGS=-Wall"] = ⟨["CFLAGS = -Wall"], some true⟩
    ∧ patchValue false (pyStrip "-Wall") = pyStrip "-Wall" :=
  ⟨by decide, by decide⟩

